import Mathlib

/-!
Verification of the summary-evaluation application (`src/main.py`).

The development shallowly embeds the program's core:
* models of the Python builtins the code relies on (`str.strip`, `int(...)`
  on a string), over `List Char` / `String`;
* the metric catalog `METRICS` (src/main.py lines 43-79);
* the prompt template and `get_geval_score` (lines 14-40, 81-98) — the
  external completion service is a parameter `svc : String → String`
  (prompt text in, response text out), matching its use as an opaque
  text-in/text-out collaborator;
* `evaluate_summaries` (lines 100-117), with exceptions modelled by
  `Except String`; the result also records the list of prompts sent, in
  order, so that the number and order of service calls is observable;
* the UI gate and summary collection (lines 134-146).
-/

/-- Characters stripped by Python's `str.strip()` (the ASCII ones; the
code never feeds it non-ASCII whitespace). -/
def isPySpace (c : Char) : Bool :=
  c == ' ' || c == '\t' || c == '\n' || c == '\r' || c == '\x0b' || c == '\x0c'

/-- Model of Python `str.strip()`: drop leading and trailing whitespace. -/
def pyStrip (s : List Char) : List Char :=
  (((s.dropWhile isPySpace).reverse).dropWhile isPySpace).reverse

/-- Value of a decimal digit character, `none` for non-digits. -/
def digitVal (c : Char) : Option Nat :=
  if '0' ≤ c ∧ c ≤ '9' then some (c.toNat - '0'.toNat) else none

/-- Accumulating base-10 evaluation of a digit string; `none` on the first
non-digit character. -/
def digitsCore (acc : Nat) : List Char → Option Nat
  | [] => some acc
  | c :: cs =>
    match digitVal c with
    | some d => digitsCore (10 * acc + d) cs
    | none => none

/-- Base-10 value of a non-empty all-digit character list, else `none`. -/
def digitsToNat (cs : List Char) : Option Nat :=
  if cs.isEmpty then none else digitsCore 0 cs

/-- Sign handling of Python `int(·)` on an already-stripped string: an
optional single leading `-` or `+`, then a non-empty digit string. -/
def pyIntCore (cs : List Char) : Option Int :=
  if cs.head? = some '-' then (digitsToNat cs.tail).map (fun n => -(n : Int))
  else if cs.head? = some '+' then (digitsToNat cs.tail).map (fun n => (n : Int))
  else (digitsToNat cs).map (fun n => (n : Int))

/-- Model of Python `int(s.strip())` as used at src/main.py line 114:
strip surrounding whitespace, then parse an optionally signed base-10
integer; any other shape raises `ValueError`, modelled as `none`.
(Python's digit-grouping underscores and non-ASCII digits are not
modelled; the program never relies on them.) -/
def pyInt (s : String) : Option Int :=
  pyIntCore (pyStrip s.data)

/-- Decimal digit character for a value `0 ≤ d ≤ 9` (junk above 9). -/
def digitChar (d : Nat) : Char :=
  match d with
  | 0 => '0' | 1 => '1' | 2 => '2' | 3 => '3' | 4 => '4'
  | 5 => '5' | 6 => '6' | 7 => '7' | 8 => '8' | 9 => '9'
  | _ => '*'

/-- Fuel-driven digit expansion (the fuel is an upper bound on the
number to keep the recursion structural). -/
def natDigitsCore : Nat → Nat → List Char
  | 0, _ => []
  | fuel + 1, n =>
    if n < 10 then [digitChar n]
    else natDigitsCore fuel (n / 10) ++ [digitChar (n % 10)]

/-- The standard base-10 digit string of a natural number (most
significant digit first), used to state what "a decimal integer" means. -/
def natDigits (n : Nat) : List Char :=
  natDigitsCore (n + 1) n

example : pyInt "3\n" = some 3 := by decide
example : pyInt "  5" = some 5 := by decide
example : pyInt "N/A" = none := by decide
example : pyInt "-12" = some (-12) := by decide
example : pyInt "" = none := by decide
example : natDigits 305 = ['3', '0', '5'] := by decide

/-! ## The metric catalog (src/main.py lines 43-79) -/

/-- A metric: its name together with its rubric (criteria text and
evaluation steps), as stored in the `METRICS` dictionary. -/
structure Metric where
  name : String
  criteria : String
  steps : String
deriving DecidableEq

/-- The `"Relevance"` entry of `METRICS` (lines 44-52). -/
def relevanceMetric : Metric :=
  { name := "Relevance"
    criteria := "Relevance(1-5) - selection of important content from the source. The summary should include only important information from the source document. Annotators were instructed to penalize summaries which contained redundancies and excess information."
    steps := "1. Read the summary and the source document carefully.\n2. Compare the summary to the source document and identify the main points of the article.\n3. Assess how well the summary covers the main points of the article, and how much irrelevant or redundant information it contains.\n4. Assign a relevance score from 1 to 5." }

/-- The `"Coherence"` entry of `METRICS` (lines 53-63). -/
def coherenceMetric : Metric :=
  { name := "Coherence"
    criteria := "Coherence(1-5) - the collective quality of all sentences. We align this dimension with the DUC quality question of structure and coherence whereby \"the summary should be well-structured and well-organized. The summary should not just be a heap of related information, but should build from sentence to a coherent body of information about a topic.\""
    steps := "1. Read the article carefully and identify the main topic and key points.\n2. Read the summary and compare it to the article. Check if the summary covers the main topic and key points of the article,\nand if it presents them in a clear and logical order.\n3. Assign a score for coherence on a scale of 1 to 5, where 1 is the lowest and 5 is the highest based on the Evaluation Criteria." }

/-- The `"Consistency"` entry of `METRICS` (lines 64-71). -/
def consistencyMetric : Metric :=
  { name := "Consistency"
    criteria := "Consistency(1-5) - the factual alignment between the summary and the summarized source. A factually consistent summary contains only statements that are entailed by the source document. Annotators were also asked to penalize summaries that contained hallucinated facts."
    steps := "1. Read the article carefully and identify the main facts and details it presents.\n2. Read the summary and compare it to the article. Check if the summary contains any factual errors that are not supported by the article.\n3. Assign a score for consistency based on the Evaluation Criteria." }

/-- The `"Fluency"` entry of `METRICS` (lines 72-78). -/
def fluencyMetric : Metric :=
  { name := "Fluency"
    criteria := "Fluency(1-3): the quality of the summary in terms of grammar, spelling, punctuation, word choice, and sentence structure.\n1: Poor. The summary has many errors that make it hard to understand or sound unnatural.\n2: Fair. The summary has some errors that affect the clarity or smoothness of the text, but the main points are still comprehensible.\n3: Good. The summary has few or no errors and is easy to read and follow."
    steps := "Read the summary and evaluate its fluency based on the given criteria. Assign a fluency score from 1 to 3." }

/-- The metric catalog, in its declared (insertion) order: Python dicts
iterate in insertion order, so `for eval_type, metric_info in
METRICS.items()` visits exactly this list. -/
def METRICS : List Metric :=
  [relevanceMetric, coherenceMetric, consistencyMetric, fluencyMetric]

/-! ## The scorer (src/main.py lines 14-40 and 81-98) -/

/-- `EVALUATION_PROMPT_TEMPLATE` (lines 14-40) with the `.format`
substitution of line 82-88 fused in: the five placeholders are replaced
by the arguments, the surrounding literal text is kept verbatim. -/
def EVALUATION_PROMPT_TEMPLATE (criteria steps document summary metric_name : String) : String :=
  "\nYou will be given one summary written for an article. Your task is to rate the summary on one metric.\nPlease make sure you read and understand these instructions very carefully. \nPlease keep this document open while reviewing, and refer to it as needed.\n\nEvaluation Criteria:\n\n"
    ++ criteria
    ++ "\n\nEvaluation Steps:\n\n"
    ++ steps
    ++ "\n\nExample:\n\nSource Text:\n\n"
    ++ document
    ++ "\n\nSummary:\n\n"
    ++ summary
    ++ "\n\nEvaluation Form (scores ONLY):\n\n- "
    ++ metric_name
    ++ "\n"

/-- `get_geval_score` (lines 81-98): build the prompt and send it to the
completion service; the returned text is the first choice's message
content. The service is the parameter `svc` (prompt in, response out);
the fixed sampling configuration (model, temperature 0, max_tokens 5,
top_p 1, zero penalties) lives inside the opaque `svc`. -/
def get_geval_score (svc : String → String) (criteria steps document summary metric_name : String) : String :=
  svc (EVALUATION_PROMPT_TEMPLATE criteria steps document summary metric_name)

/-! ## The report builder (src/main.py lines 100-117) -/

/-- One row of the `data` table built by `evaluate_summaries`:
an (Evaluation Type, Summary Type, Score) triple. -/
structure ScoreRow where
  evalType : String
  summType : String
  score : Int
deriving DecidableEq

/-- Result of a run of `evaluate_summaries`: the rows (or the propagated
exception message), together with the prompts sent to the service, in
the order the calls were issued. -/
structure EvalResult where
  rows : Except String (List ScoreRow)
  calls : List String

/-- The prompt `get_geval_score` sends for metric `m`, source text `src`
and the summary pair `p` (label, text): only `p.2`, the text, is used. -/
def promptOf (src : String) (m : Metric) (p : String × String) : String :=
  EVALUATION_PROMPT_TEMPLATE m.criteria m.steps src p.2 m.name

/-- The parsed score for one (metric, summary) cell: the service response
to the cell's prompt, stripped and parsed as an integer. -/
def cellScore (svc : String → String) (src : String) (m : Metric) (p : String × String) : Option Int :=
  pyInt (get_geval_score svc m.criteria m.steps src p.2 m.name)

/-- Inner loop of `evaluate_summaries` (lines 104-115) for one metric:
iterate the summaries in mapping order; for each, call the service and
parse `int(result.strip())`; an unparseable response raises, which
aborts the whole run (no further calls, no rows returned). -/
def runInner (svc : String → String) (src : String) (m : Metric) :
    List (String × String) → EvalResult
  | [] => { rows := .ok [], calls := [] }
  | p :: rest =>
    let result := get_geval_score svc m.criteria m.steps src p.2 m.name
    match pyInt result with
    | none =>
      { rows := .error ("invalid literal for int() with base 10: " ++ result)
        calls := [promptOf src m p] }
    | some n =>
      let r := runInner svc src m rest
      { rows := r.rows.map (fun rs => ⟨m.name, p.1, n⟩ :: rs)
        calls := promptOf src m p :: r.calls }

/-- Outer loop of `evaluate_summaries` (line 103): iterate the metrics in
catalog order, running the inner loop for each; a raised exception
propagates, skipping all later metrics. -/
def runOuter (svc : String → String) (src : String) (summaries : List (String × String)) :
    List Metric → EvalResult
  | [] => { rows := .ok [], calls := [] }
  | m :: ms =>
    let r := runInner svc src m summaries
    match r.rows with
    | .error e => { rows := .error e, calls := r.calls }
    | .ok rows =>
      let r2 := runOuter svc src summaries ms
      { rows := r2.rows.map (fun rs => rows ++ rs), calls := r.calls ++ r2.calls }

/-- `evaluate_summaries` (lines 100-117): the summaries mapping is an
insertion-ordered association list (Python dict). On success the rows
are exactly the `data` rows from which `pd.DataFrame` is built. -/
def evaluate_summaries (svc : String → String) (source_text : String)
    (summaries : List (String × String)) : EvalResult :=
  runOuter svc source_text summaries METRICS

/-! ## The UI layer around the call (src/main.py lines 134-146) -/

/-- Collection of the summaries mapping (lines 134-143): the i-th field's
text is added under key `"Summary i+1"` only when it is non-empty
(Python string truthiness); blank fields are skipped silently. -/
def collectFrom : Nat → List String → List (String × String)
  | _, [] => []
  | i, s :: rest =>
    if s.isEmpty then collectFrom (i + 1) rest
    else ("Summary " ++ toString (i + 1), s) :: collectFrom (i + 1) rest

/-- The summaries mapping built from the N text-area contents. -/
def collect_summaries (inputs : List String) : List (String × String) :=
  collectFrom 0 inputs

/-- The gate of line 146: `st.button(...) and source_text and
all(summaries.values())` — truthiness of a Python string is
non-emptiness, and `all` over the dict values is a conjunction over the
stored summary texts (vacuously true for an empty dict). -/
def gate (button : Bool) (source_text : String) (summaries : List (String × String)) : Bool :=
  button && !source_text.isEmpty && (summaries.map Prod.snd).all (fun t => !t.isEmpty)

/-! ## State-threading variant of the run

The repository's own loop keeps no state between calls: `data` is
created afresh on every invocation of `evaluate_summaries` and the only
object surviving a call is the service client. To make "no hidden state
is carried from one run to the next" a contentful statement, this
variant threads an arbitrary service state `σ` through the calls, in
call order; the pure embedding above is the special case of a stateless
service. -/

/-- `runInner` with a stateful service `step : σ → prompt → response × σ`. -/
def runInnerSt {σ : Type} (step : σ → String → String × σ) (src : String) (m : Metric) :
    σ → List (String × String) → EvalResult × σ
  | s, [] => ({ rows := .ok [], calls := [] }, s)
  | s, p :: rest =>
    let rs := step s (promptOf src m p)
    match pyInt rs.1 with
    | none =>
      ({ rows := .error ("invalid literal for int() with base 10: " ++ rs.1)
         calls := [promptOf src m p] }, rs.2)
    | some n =>
      let r := runInnerSt step src m rs.2 rest
      ({ rows := r.1.rows.map (fun l => ⟨m.name, p.1, n⟩ :: l)
         calls := promptOf src m p :: r.1.calls }, r.2)

/-- `runOuter` with a stateful service. -/
def runOuterSt {σ : Type} (step : σ → String → String × σ) (src : String)
    (summaries : List (String × String)) :
    σ → List Metric → EvalResult × σ
  | s, [] => ({ rows := .ok [], calls := [] }, s)
  | s, m :: ms =>
    let r := runInnerSt step src m s summaries
    match r.1.rows with
    | .error e => ({ rows := .error e, calls := r.1.calls }, r.2)
    | .ok rows =>
      let r2 := runOuterSt step src summaries r.2 ms
      ({ rows := r2.1.rows.map (fun l => rows ++ l)
         calls := r.1.calls ++ r2.1.calls }, r2.2)

/-- `evaluate_summaries` against a stateful service, returning the final
service state alongside the result. -/
def evaluate_summariesSt {σ : Type} (step : σ → String → String × σ) (s : σ)
    (source_text : String) (summaries : List (String × String)) : EvalResult × σ :=
  runOuterSt step source_text summaries s METRICS

example :
    (evaluate_summaries (fun _ => "5") "doc" [("Summary 1", "a")]).rows =
      .ok [⟨"Relevance", "Summary 1", 5⟩, ⟨"Coherence", "Summary 1", 5⟩,
        ⟨"Consistency", "Summary 1", 5⟩, ⟨"Fluency", "Summary 1", 5⟩] := by
  rfl

example :
    (evaluate_summaries (fun _ => "N/A") "doc" [("Summary 1", "a")]).calls.length = 1 := by
  rfl

example : gate true "doc" [] = true := by rfl

example : collect_summaries ["a", "", "b"] = [("Summary 1", "a"), ("Summary 3", "b")] := by rfl

/-! ## Characterization of successful runs -/

/-- The row `evaluate_summaries` appends for a (metric, summary) cell
whose response parses. -/
def rowOf (svc : String → String) (src : String) (m : Metric) (p : String × String) : ScoreRow :=
  ⟨m.name, p.1, (cellScore svc src m p).getD 0⟩

theorem runInner_eq_of_parses (svc : String → String) (src : String) (m : Metric)
    (l : List (String × String)) (h : ∀ p ∈ l, (cellScore svc src m p).isSome) :
    runInner svc src m l =
      { rows := .ok (l.map (rowOf svc src m)), calls := l.map (promptOf src m) } := by
  induction l with
  | nil => rfl
  | cons p rest ih =>
    obtain ⟨n, hn⟩ := Option.isSome_iff_exists.mp (h p (List.mem_cons_self p rest))
    have hn' : pyInt (get_geval_score svc m.criteria m.steps src p.2 m.name) = some n := hn
    have ih' := ih (fun q hq => h q (List.mem_cons_of_mem _ hq))
    simp only [runInner, hn', ih', Except.map, List.map_cons]
    simp [rowOf, hn]

theorem runInner_ok_parses (svc : String → String) (src : String) (m : Metric)
    (l : List (String × String)) (rows : List ScoreRow)
    (h : (runInner svc src m l).rows = .ok rows) :
    ∀ p ∈ l, (cellScore svc src m p).isSome := by
  induction l generalizing rows with
  | nil => simp
  | cons p rest ih =>
    intro q hq
    rcases hc : cellScore svc src m p with _ | n
    · have hc' : pyInt (get_geval_score svc m.criteria m.steps src p.2 m.name) = none := hc
      simp only [runInner, hc'] at h
      simp at h
    · have hc' : pyInt (get_geval_score svc m.criteria m.steps src p.2 m.name) = some n := hc
      simp only [runInner, hc'] at h
      rcases List.mem_cons.mp hq with rfl | hq'
      · simp [hc]
      · rcases hr : (runInner svc src m rest).rows with e | rows'
        · rw [hr] at h; simp [Except.map] at h
        · exact ih rows' hr q hq'

theorem runOuter_eq_of_parses (svc : String → String) (src : String)
    (summs : List (String × String)) (ms : List Metric)
    (h : ∀ m ∈ ms, ∀ p ∈ summs, (cellScore svc src m p).isSome) :
    runOuter svc src summs ms =
      { rows := .ok (ms.flatMap fun m => summs.map (rowOf svc src m)),
        calls := ms.flatMap fun m => summs.map (promptOf src m) } := by
  induction ms with
  | nil => rfl
  | cons m ms ih =>
    have hm := runInner_eq_of_parses svc src m summs (h m (List.mem_cons_self m ms))
    have ih' := ih (fun m' hm' => h m' (List.mem_cons_of_mem _ hm'))
    simp only [runOuter, hm, ih', Except.map, List.flatMap_cons]

theorem runOuter_ok_parses (svc : String → String) (src : String)
    (summs : List (String × String)) (ms : List Metric) (rows : List ScoreRow)
    (h : (runOuter svc src summs ms).rows = .ok rows) :
    ∀ m ∈ ms, ∀ p ∈ summs, (cellScore svc src m p).isSome := by
  induction ms generalizing rows with
  | nil => simp
  | cons m ms ih =>
    intro m' hm' p hp
    rcases hr : (runInner svc src m summs).rows with e | rows0
    · simp only [runOuter, hr] at h
      simp at h
    · simp only [runOuter, hr] at h
      rcases List.mem_cons.mp hm' with rfl | hm''
      · exact runInner_ok_parses svc src m' summs rows0 hr p hp
      · rcases hr2 : (runOuter svc src summs ms).rows with e | rows1
        · rw [hr2] at h; simp [Except.map] at h
        · exact ih rows1 hr2 m' hm'' p hp

/-! ## Parsing round trip: a whitespace-padded decimal integer parses
back to itself -/

theorem dropWhile_of_head_false {l : List Char} (h : ∀ c ∈ l, isPySpace c = false) :
    l.dropWhile isPySpace = l := by
  cases l with
  | nil => rfl
  | cons c cs => rw [List.dropWhile_cons, h c (List.mem_cons_self c cs)]; simp

theorem pyStrip_padded (ws1 ws2 mid : List Char)
    (h1 : ∀ c ∈ ws1, isPySpace c = true) (h2 : ∀ c ∈ ws2, isPySpace c = true)
    (hm : mid ≠ []) (hmid : ∀ c ∈ mid, isPySpace c = false) :
    pyStrip (ws1 ++ mid ++ ws2) = mid := by
  obtain ⟨c, cs, rfl⟩ := List.exists_cons_of_ne_nil hm
  unfold pyStrip
  have hd1 : ws1.dropWhile isPySpace = [] := by
    rw [List.dropWhile_eq_nil_iff]; exact h1
  have e1 : ((c :: cs ++ ws2).dropWhile isPySpace) = c :: cs ++ ws2 := by
    rw [List.cons_append, List.dropWhile_cons, hmid c (List.mem_cons_self c cs)]; simp
  have e0 : ((ws1 ++ (c :: cs) ++ ws2).dropWhile isPySpace) = c :: cs ++ ws2 := by
    rw [List.append_assoc, List.dropWhile_append, hd1]
    simpa using e1
  rw [e0]
  have hd2 : (ws2.reverse).dropWhile isPySpace = [] := by
    rw [List.dropWhile_eq_nil_iff]
    intro x hx
    exact h2 x (List.mem_reverse.mp hx)
  rcases hrev : (c :: cs).reverse with _ | ⟨d, ds⟩
  · exact absurd hrev (by simp)
  · have hdns : isPySpace d = false := by
      have : d ∈ (c :: cs).reverse := by rw [hrev]; exact List.mem_cons_self d ds
      exact hmid d (List.mem_reverse.mp this)
    have e2 : ((c :: cs) ++ ws2).reverse = ws2.reverse ++ (c :: cs).reverse := by simp
    rw [show c :: cs ++ ws2 = (c :: cs) ++ ws2 from rfl, e2, List.dropWhile_append, hd2]
    simp only [List.isEmpty_nil, if_true]
    rw [hrev, List.dropWhile_cons, hdns]
    simp only [Bool.false_eq_true, if_false]
    rw [← hrev, List.reverse_reverse]

theorem digitVal_digitChar (d : Nat) (hd : d < 10) : digitVal (digitChar d) = some d := by
  interval_cases d <;> decide

theorem digitChar_not_space (d : Nat) : isPySpace (digitChar d) = false := by
  unfold digitChar
  split <;> decide

theorem digitChar_not_sign (d : Nat) : digitChar d ≠ '-' ∧ digitChar d ≠ '+' := by
  unfold digitChar
  split <;> exact ⟨by decide, by decide⟩

theorem digitsCore_append (acc : Nat) (l1 l2 : List Char) :
    digitsCore acc (l1 ++ l2) =
      (digitsCore acc l1).bind (fun a => digitsCore a l2) := by
  induction l1 generalizing acc with
  | nil => rfl
  | cons c cs ih =>
    rw [List.cons_append, digitsCore]
    cases hv : digitVal c with
    | none => simp [digitsCore, hv]
    | some d => simp [digitsCore, hv, ih]

theorem digitsCore_natDigitsCore (fuel : Nat) :
    ∀ n acc, n < fuel →
      digitsCore acc (natDigitsCore fuel n) =
        some (acc * 10 ^ (natDigitsCore fuel n).length + n) := by
  induction fuel with
  | zero => intro n acc h; omega
  | succ fuel ih =>
    intro n acc h
    rw [natDigitsCore]
    by_cases h10 : n < 10
    · rw [if_pos h10]
      simp [digitsCore, digitVal_digitChar n h10]
      omega
    · rw [if_neg h10]
      rw [digitsCore_append]
      have hdiv : n / 10 < fuel := by omega
      rw [ih (n / 10) acc hdiv]
      have hmod : n % 10 < 10 := Nat.mod_lt _ (by norm_num)
      simp only [Option.some_bind, digitsCore, digitVal_digitChar _ hmod,
        List.length_append, List.length_singleton]
      congr 1
      have hdm : 10 * (n / 10) + n % 10 = n := Nat.div_add_mod n 10
      calc 10 * (acc * 10 ^ (natDigitsCore fuel (n / 10)).length + n / 10) + n % 10
          = acc * (10 ^ (natDigitsCore fuel (n / 10)).length * 10)
              + (10 * (n / 10) + n % 10) := by ring
        _ = acc * 10 ^ ((natDigitsCore fuel (n / 10)).length + 1) + n := by
              rw [hdm, pow_succ]

theorem natDigitsCore_ne_nil (fuel n : Nat) (h : 0 < fuel) : natDigitsCore fuel n ≠ [] := by
  cases fuel with
  | zero => omega
  | succ fuel =>
    rw [natDigitsCore]
    by_cases h10 : n < 10
    · simp [h10]
    · simp [h10]

theorem natDigitsCore_chars (fuel : Nat) :
    ∀ n, ∀ c ∈ natDigitsCore fuel n, ∃ d, c = digitChar d := by
  induction fuel with
  | zero => intro n c hc; simp [natDigitsCore] at hc
  | succ fuel ih =>
    intro n c hc
    rw [natDigitsCore] at hc
    by_cases h10 : n < 10
    · rw [if_pos h10] at hc
      simp at hc
      exact ⟨n, hc⟩
    · rw [if_neg h10] at hc
      rcases List.mem_append.mp hc with hc' | hc'
      · exact ih _ c hc'
      · simp at hc'
        exact ⟨n % 10, hc'⟩

theorem digitsToNat_natDigits (n : Nat) : digitsToNat (natDigits n) = some n := by
  unfold digitsToNat natDigits
  rw [if_neg (by simpa using natDigitsCore_ne_nil (n + 1) n (Nat.succ_pos n))]
  rw [digitsCore_natDigitsCore (n + 1) n 0 (Nat.lt_succ_self n)]
  simp

theorem pyIntCore_digits (cs : List Char) (hne : cs ≠ [])
    (hch : ∀ c ∈ cs, ∃ d, c = digitChar d) :
    pyIntCore cs = (digitsToNat cs).map (fun n => (n : Int)) := by
  obtain ⟨c, cs', rfl⟩ := List.exists_cons_of_ne_nil hne
  obtain ⟨d, rfl⟩ := hch c (List.mem_cons_self c cs')
  unfold pyIntCore
  rw [if_neg ?hminus, if_neg ?hplus]
  case hminus =>
    simp only [List.head?_cons, Option.some.injEq]
    exact (digitChar_not_sign d).1
  case hplus =>
    simp only [List.head?_cons, Option.some.injEq]
    exact (digitChar_not_sign d).2

/-! ## A pure (stateless, deterministic) service makes the run
independent of the service state -/

theorem runInnerSt_pure {σ : Type} (step : σ → String → String × σ) (f : String → String)
    (hstep : ∀ s p, (step s p).1 = f p) (src : String) (m : Metric)
    (l : List (String × String)) :
    ∀ s : σ, (runInnerSt step src m s l).1 = runInner f src m l := by
  induction l with
  | nil => intro s; rfl
  | cons p rest ih =>
    intro s
    simp only [runInnerSt, runInner, get_geval_score, promptOf, hstep]
    cases hc : pyInt (f (EVALUATION_PROMPT_TEMPLATE m.criteria m.steps src p.2 m.name)) with
    | none => rfl
    | some n =>
      simp only [ih]

theorem runOuterSt_pure {σ : Type} (step : σ → String → String × σ) (f : String → String)
    (hstep : ∀ s p, (step s p).1 = f p) (src : String)
    (summs : List (String × String)) (ms : List Metric) :
    ∀ s : σ, (runOuterSt step src summs s ms).1 = runOuter f src summs ms := by
  induction ms with
  | nil => intro s; rfl
  | cons m ms ih =>
    intro s
    simp only [runOuterSt, runOuter]
    rw [runInnerSt_pure step f hstep src m summs s]
    cases hr : (runInner f src m summs).rows with
    | error e =>
      simp only [hr]
    | ok rows =>
      simp only [hr, ih]

theorem evaluate_summariesSt_pure {σ : Type} (step : σ → String → String × σ)
    (f : String → String) (hstep : ∀ s p, (step s p).1 = f p)
    (src : String) (summs : List (String × String)) (s : σ) :
    (evaluate_summariesSt step s src summs).1 = evaluate_summaries f src summs :=
  runOuterSt_pure step f hstep src summs METRICS s

/-! ## Derived characterizations of `evaluate_summaries` -/

/-- The (metric, summary-label) key of a score row. -/
def rowKey (r : ScoreRow) : String × String := (r.evalType, r.summType)

theorem flatMap_const_length {α β : Type} (l : List α) (g : α → List β) (k : Nat)
    (h : ∀ a ∈ l, (g a).length = k) : (l.flatMap g).length = l.length * k := by
  induction l with
  | nil => simp
  | cons a l ih =>
    rw [List.flatMap_cons, List.length_append, h a (List.mem_cons_self a l),
      ih (fun b hb => h b (List.mem_cons_of_mem _ hb)), List.length_cons]
    ring

theorem evaluate_summaries_ok_char (svc : String → String) (src : String)
    (summaries : List (String × String)) (rows : List ScoreRow)
    (hok : (evaluate_summaries svc src summaries).rows = .ok rows) :
    rows = METRICS.flatMap (fun m => summaries.map (rowOf svc src m)) ∧
    (evaluate_summaries svc src summaries).calls =
      METRICS.flatMap (fun m => summaries.map (promptOf src m)) ∧
    ∀ m ∈ METRICS, ∀ p ∈ summaries, (cellScore svc src m p).isSome := by
  have hpar := runOuter_ok_parses svc src summaries METRICS rows hok
  have heq := runOuter_eq_of_parses svc src summaries METRICS hpar
  have hok' := hok
  rw [show evaluate_summaries svc src summaries = runOuter svc src summaries METRICS from rfl,
    heq] at hok'
  simp only [Except.ok.injEq] at hok'
  refine ⟨hok'.symm, ?_, hpar⟩
  rw [show evaluate_summaries svc src summaries = runOuter svc src summaries METRICS from rfl,
    heq]

/-! ## Claims -/

/-- Claim C1: for every document and every summaries mapping of N
non-empty summaries with N between 1 and 5, `evaluate_summaries`
(`build_report`) invokes the scorer exactly 4×N times — once per
(metric, summary) pair — and on success returns a table whose row keys
are exactly the product of the 4 metric names with the N summary labels
(4 rows per metric, N columns per label), every cell holding a parsed
score, and no (metric, summary) pair appearing twice. -/
theorem claim1_report_shape (svc : String → String) (src : String)
    (summaries : List (String × String)) (N : Nat) (rows : List ScoreRow)
    (hN : summaries.length = N) (_hlo : 1 ≤ N) (_hhi : N ≤ 5)
    (_hne : ∀ p ∈ summaries, p.2.isEmpty = false)
    (hlab : (summaries.map Prod.fst).Nodup)
    (hok : (evaluate_summaries svc src summaries).rows = .ok rows) :
    (evaluate_summaries svc src summaries).calls.length = 4 * N ∧
    rows.length = 4 * N ∧
    rows.map rowKey = List.product (METRICS.map Metric.name) (summaries.map Prod.fst) ∧
    (rows.map rowKey).Nodup ∧
    ∀ m ∈ METRICS, ∀ p ∈ summaries, (cellScore svc src m p).isSome := by
  obtain ⟨hrows, hcalls, hpar⟩ := evaluate_summaries_ok_char svc src summaries rows hok
  have hckey : rows.map rowKey =
      METRICS.flatMap (fun m => summaries.map (fun p => (m.name, p.1))) := by
    rw [hrows, List.map_flatMap]
    congr 1
    funext m
    rw [List.map_map]
    rfl
  have hprod : List.product (METRICS.map Metric.name) (summaries.map Prod.fst) =
      METRICS.flatMap (fun m => summaries.map (fun p => (m.name, p.1))) := by
    unfold List.product
    rw [List.flatMap_map]
    congr 1
    funext m
    rw [List.map_map]
    rfl
  refine ⟨?_, ?_, ?_, ?_, hpar⟩
  · rw [hcalls, flatMap_const_length METRICS _ N (fun m _ => by rw [List.length_map, hN])]
    rfl
  · rw [hrows, flatMap_const_length METRICS _ N (fun m _ => by rw [List.length_map, hN])]
    rfl
  · rw [hckey, hprod]
  · rw [hckey, ← hprod]
    exact List.Nodup.product (by decide) hlab

/-- Witness for claim C1: a concrete run with two summaries against a
stub returning "5" for every call. -/
theorem claim1_report_shape_witness :
    ([("Summary 1", "a"), ("Summary 2", "b")] : List (String × String)).length = 2 ∧
    1 ≤ 2 ∧ 2 ≤ 5 ∧
    (∀ p ∈ ([("Summary 1", "a"), ("Summary 2", "b")] : List (String × String)),
      p.2.isEmpty = false) ∧
    (([("Summary 1", "a"), ("Summary 2", "b")] : List (String × String)).map Prod.fst).Nodup ∧
    (evaluate_summaries (fun _ => "5") "doc" [("Summary 1", "a"), ("Summary 2", "b")]).rows =
      .ok [⟨"Relevance", "Summary 1", 5⟩, ⟨"Relevance", "Summary 2", 5⟩,
        ⟨"Coherence", "Summary 1", 5⟩, ⟨"Coherence", "Summary 2", 5⟩,
        ⟨"Consistency", "Summary 1", 5⟩, ⟨"Consistency", "Summary 2", 5⟩,
        ⟨"Fluency", "Summary 1", 5⟩, ⟨"Fluency", "Summary 2", 5⟩] ∧
    ((evaluate_summaries (fun _ => "5") "doc"
        [("Summary 1", "a"), ("Summary 2", "b")]).calls.length = 4 * 2 ∧
      ([⟨"Relevance", "Summary 1", 5⟩, ⟨"Relevance", "Summary 2", 5⟩,
        ⟨"Coherence", "Summary 1", 5⟩, ⟨"Coherence", "Summary 2", 5⟩,
        ⟨"Consistency", "Summary 1", 5⟩, ⟨"Consistency", "Summary 2", 5⟩,
        ⟨"Fluency", "Summary 1", 5⟩, ⟨"Fluency", "Summary 2", 5⟩] : List ScoreRow).length = 4 * 2 ∧
      ([⟨"Relevance", "Summary 1", 5⟩, ⟨"Relevance", "Summary 2", 5⟩,
        ⟨"Coherence", "Summary 1", 5⟩, ⟨"Coherence", "Summary 2", 5⟩,
        ⟨"Consistency", "Summary 1", 5⟩, ⟨"Consistency", "Summary 2", 5⟩,
        ⟨"Fluency", "Summary 1", 5⟩, ⟨"Fluency", "Summary 2", 5⟩] : List ScoreRow).map rowKey =
        List.product (METRICS.map Metric.name)
          (([("Summary 1", "a"), ("Summary 2", "b")] : List (String × String)).map Prod.fst) ∧
      (([⟨"Relevance", "Summary 1", 5⟩, ⟨"Relevance", "Summary 2", 5⟩,
        ⟨"Coherence", "Summary 1", 5⟩, ⟨"Coherence", "Summary 2", 5⟩,
        ⟨"Consistency", "Summary 1", 5⟩, ⟨"Consistency", "Summary 2", 5⟩,
        ⟨"Fluency", "Summary 1", 5⟩, ⟨"Fluency", "Summary 2", 5⟩] : List ScoreRow).map rowKey).Nodup ∧
      ∀ m ∈ METRICS, ∀ p ∈ ([("Summary 1", "a"), ("Summary 2", "b")] : List (String × String)),
        (cellScore (fun _ => "5") "doc" m p).isSome) :=
  ⟨rfl, by decide, by decide, by decide, by decide, rfl,
    claim1_report_shape (fun _ => "5") "doc" [("Summary 1", "a"), ("Summary 2", "b")] 2 _
      rfl (by decide) (by decide) (by decide) (by decide) rfl⟩

/-- Claim C2: if any completion response of the run is not parseable as
an integer, `evaluate_summaries` propagates the failure and returns no
report object at all — no partial table and no default or sentinel score
substituted for the failed cell. -/
theorem claim2_parse_failure_aborts (svc : String → String) (src : String)
    (summaries : List (String × String))
    (h : ∃ m ∈ METRICS, ∃ p ∈ summaries, cellScore svc src m p = none) :
    ∃ e, (evaluate_summaries svc src summaries).rows = .error e := by
  obtain ⟨m, hm, p, hp, hc⟩ := h
  rcases hres : (evaluate_summaries svc src summaries).rows with e | rows
  · exact ⟨e, rfl⟩
  · exfalso
    have := runOuter_ok_parses svc src summaries METRICS rows hres m hm p hp
    rw [hc] at this
    simp at this

/-- Witness for claim C2: a stub answering "N/A" on every call makes the
run fail with an error and no rows. -/
theorem claim2_parse_failure_aborts_witness :
    (∃ m ∈ METRICS, ∃ p ∈ ([("Summary 1", "a")] : List (String × String)),
      cellScore (fun _ => "N/A") "doc" m p = none) ∧
    ∃ e, (evaluate_summaries (fun _ => "N/A") "doc" [("Summary 1", "a")]).rows = .error e :=
  ⟨⟨relevanceMetric, List.mem_cons_self _ _, ("Summary 1", "a"), List.mem_cons_self _ _, rfl⟩,
    claim2_parse_failure_aborts (fun _ => "N/A") "doc" [("Summary 1", "a")]
      ⟨relevanceMetric, List.mem_cons_self _ _, ("Summary 1", "a"), List.mem_cons_self _ _, rfl⟩⟩

/-- Claim C6: `evaluate_summaries` iterates the four metrics in their
catalog-declared order (Relevance, Coherence, Consistency, Fluency) and,
within each metric, the summaries in caller-supplied mapping order,
issuing one sequential scorer call and appending one score row per
(metric, summary) pair; on success both the row sequence and the call
sequence are exactly this metric-major ordering. -/
theorem claim6_iteration_order (svc : String → String) (src : String)
    (summaries : List (String × String)) (rows : List ScoreRow)
    (hok : (evaluate_summaries svc src summaries).rows = .ok rows) :
    METRICS.map Metric.name = ["Relevance", "Coherence", "Consistency", "Fluency"] ∧
    rows = METRICS.flatMap (fun m => summaries.map (rowOf svc src m)) ∧
    (evaluate_summaries svc src summaries).calls =
      METRICS.flatMap (fun m => summaries.map (promptOf src m)) := by
  obtain ⟨hrows, hcalls, _⟩ := evaluate_summaries_ok_char svc src summaries rows hok
  exact ⟨rfl, hrows, hcalls⟩

/-- Witness for claim C6 at a concrete one-summary run. -/
theorem claim6_iteration_order_witness :
    (evaluate_summaries (fun _ => "5") "doc" [("Summary 1", "a")]).rows =
      .ok [⟨"Relevance", "Summary 1", 5⟩, ⟨"Coherence", "Summary 1", 5⟩,
        ⟨"Consistency", "Summary 1", 5⟩, ⟨"Fluency", "Summary 1", 5⟩] ∧
    (METRICS.map Metric.name = ["Relevance", "Coherence", "Consistency", "Fluency"] ∧
      [⟨"Relevance", "Summary 1", 5⟩, ⟨"Coherence", "Summary 1", 5⟩,
        ⟨"Consistency", "Summary 1", 5⟩, ⟨"Fluency", "Summary 1", 5⟩] =
        METRICS.flatMap (fun m => ([("Summary 1", "a")] : List (String × String)).map
          (rowOf (fun _ => "5") "doc" m)) ∧
      (evaluate_summaries (fun _ => "5") "doc" [("Summary 1", "a")]).calls =
        METRICS.flatMap (fun m => ([("Summary 1", "a")] : List (String × String)).map
          (promptOf "doc" m))) :=
  ⟨rfl, claim6_iteration_order (fun _ => "5") "doc" [("Summary 1", "a")] _ rfl⟩

/-- Claim C8: the system performs no range validation on the parsed
score: whenever the response for a (metric, summary) pair parses to an
integer k, the successful report contains the row with score exactly k,
even when k lies outside the metric's declared 1-5 (or 1-3) scale. -/
theorem claim8_no_range_validation (svc : String → String) (src : String)
    (summaries : List (String × String)) (rows : List ScoreRow)
    (hok : (evaluate_summaries svc src summaries).rows = .ok rows)
    (m : Metric) (hm : m ∈ METRICS) (p : String × String) (hp : p ∈ summaries)
    (k : Int) (hk : cellScore svc src m p = some k) :
    (⟨m.name, p.1, k⟩ : ScoreRow) ∈ rows := by
  obtain ⟨hrows, _, _⟩ := evaluate_summaries_ok_char svc src summaries rows hok
  rw [hrows, List.mem_flatMap]
  refine ⟨m, hm, ?_⟩
  rw [List.mem_map]
  exact ⟨p, hp, by simp [rowOf, hk]⟩

/-- Witness for claim C8: a stub returning "7" — outside every declared
scale — produces the cell value 7 unchanged. -/
theorem claim8_no_range_validation_witness :
    (evaluate_summaries (fun _ => "7") "doc" [("Summary 1", "a")]).rows =
      .ok [⟨"Relevance", "Summary 1", 7⟩, ⟨"Coherence", "Summary 1", 7⟩,
        ⟨"Consistency", "Summary 1", 7⟩, ⟨"Fluency", "Summary 1", 7⟩] ∧
    cellScore (fun _ => "7") "doc" relevanceMetric ("Summary 1", "a") = some 7 ∧
    (⟨"Relevance", "Summary 1", 7⟩ : ScoreRow) ∈
      ([⟨"Relevance", "Summary 1", 7⟩, ⟨"Coherence", "Summary 1", 7⟩,
        ⟨"Consistency", "Summary 1", 7⟩, ⟨"Fluency", "Summary 1", 7⟩] : List ScoreRow) :=
  ⟨rfl, rfl,
    claim8_no_range_validation (fun _ => "7") "doc" [("Summary 1", "a")] _ rfl
      relevanceMetric (List.mem_cons_self _ _) ("Summary 1", "a") (List.mem_cons_self _ _)
      7 rfl⟩

/-- Claim C3 is contradicted by the code: with an empty summaries
mapping the line-146 gate passes — Python's `all` over an empty dict is
vacuously true, so the summaries conjunct can never block — and the
evaluation is run over zero summaries instead of being declined: it
issues no call and hands an empty table to the display layer. -/
theorem claim3_empty_mapping_not_rejected :
    gate true "The cat sat on the mat." [] = true ∧
    evaluate_summaries (fun _ => "5") "The cat sat on the mat." [] =
      { rows := .ok [], calls := [] } :=
  ⟨rfl, rfl⟩

/-- Claim C4: the scorer parses the full response text, trimmed of
surrounding whitespace, as a base-10 integer: a response consisting of a
decimal integer surrounded by whitespace (such as "3\n") parses to
exactly that integer. -/
theorem claim4_trimmed_parse (n : Nat) (ws1 ws2 : List Char)
    (h1 : ∀ c ∈ ws1, isPySpace c = true) (h2 : ∀ c ∈ ws2, isPySpace c = true) :
    pyInt (String.mk (ws1 ++ natDigits n ++ ws2)) = some (n : Int) := by
  have hch := natDigitsCore_chars (n + 1) n
  have hne : natDigits n ≠ [] := natDigitsCore_ne_nil (n + 1) n (Nat.succ_pos n)
  have hns : ∀ c ∈ natDigits n, isPySpace c = false := by
    intro c hc
    obtain ⟨d, rfl⟩ := hch c hc
    exact digitChar_not_space d
  unfold pyInt
  rw [show (String.mk (ws1 ++ natDigits n ++ ws2)).data = ws1 ++ natDigits n ++ ws2 from rfl]
  rw [pyStrip_padded ws1 ws2 (natDigits n) h1 h2 hne hns]
  rw [pyIntCore_digits (natDigits n) hne (fun c hc => hch c hc)]
  rw [digitsToNat_natDigits n]
  rfl

/-- Witness for claim C4: the response "3\n" (a digit plus trailing
newline) parses to the integer 3. -/
theorem claim4_trimmed_parse_witness :
    (∀ c ∈ ([] : List Char), isPySpace c = true) ∧
    (∀ c ∈ ['\n'], isPySpace c = true) ∧
    pyInt (String.mk ([] ++ natDigits 3 ++ ['\n'])) = some (3 : Int) :=
  ⟨by decide, by decide, claim4_trimmed_parse 3 [] ['\n'] (by decide) (by decide)⟩

/-- Claim C5: `evaluate_summaries` is deterministic and stateless across
invocations: against a deterministic (pure-function) stub service, two
runs with identical document and summaries produce identical results
whatever service state each run starts from — in particular a second run
starting from the first run's final state — so no hidden state is
carried between runs. -/
theorem claim5_stateless_deterministic {σ : Type} (step : σ → String → String × σ)
    (f : String → String) (hstep : ∀ s p, (step s p).1 = f p)
    (src : String) (summaries : List (String × String)) (s1 s2 : σ) :
    (evaluate_summariesSt step s1 src summaries).1 =
      (evaluate_summariesSt step s2 src summaries).1 := by
  rw [evaluate_summariesSt_pure step f hstep src summaries s1,
    evaluate_summariesSt_pure step f hstep src summaries s2]

/-- Witness for claim C5: a call-counting service whose responses are
the constant "5"; runs from counter 0 and counter 3 agree. -/
theorem claim5_stateless_deterministic_witness :
    (∀ (s : Nat) (p : String),
      ((fun (s : Nat) (_ : String) => ("5", s + 1)) s p).1 = (fun (_ : String) => "5") p) ∧
    (evaluate_summariesSt (fun (s : Nat) (_ : String) => ("5", s + 1)) 0 "doc"
        [("Summary 1", "a")]).1 =
      (evaluate_summariesSt (fun (s : Nat) (_ : String) => ("5", s + 1)) 3 "doc"
        [("Summary 1", "a")]).1 :=
  ⟨fun _ _ => rfl,
    claim5_stateless_deterministic (fun (s : Nat) (_ : String) => ("5", s + 1))
      (fun _ => "5") (fun _ _ => rfl) "doc" [("Summary 1", "a")] 0 3⟩

set_option maxRecDepth 4000 in
/-- Claim C7: for every criteria, steps, document, summary and metric
name, the prompt the scorer sends to the service is a block containing,
in order: the evaluation criteria, a blank line, the evaluation steps, a
blank line, the literal word "Example:", the source text labeled
"Source Text:", the summary labeled "Summary:", and a closing
"Evaluation Form (scores ONLY):" line listing the single metric name as
the only expected output field. -/
theorem claim7_prompt_structure (svc : String → String)
    (criteria steps document summary metric_name : String) :
    ∃ preamble : String,
      get_geval_score svc criteria steps document summary metric_name =
        svc (preamble ++ "Evaluation Criteria:\n\n" ++ criteria
          ++ "\n\nEvaluation Steps:\n\n" ++ steps
          ++ "\n\nExample:\n\nSource Text:\n\n" ++ document
          ++ "\n\nSummary:\n\n" ++ summary
          ++ "\n\nEvaluation Form (scores ONLY):\n\n- " ++ metric_name ++ "\n") :=
  ⟨"\nYou will be given one summary written for an article. Your task is to rate the summary on one metric.\nPlease make sure you read and understand these instructions very carefully. \nPlease keep this document open while reviewing, and refer to it as needed.\n\n",
    rfl⟩

/-- Claim C9: with document "The cat sat on the mat." and the two
summaries "A cat sat." and "A dog ran.", a stub service returning "5"
for every call yields a report whose 8 cells (4 metrics × 2 summaries)
all hold the integer 5. -/
theorem claim9_all_fives :
    (evaluate_summaries (fun _ => "5") "The cat sat on the mat."
        [("Summary 1", "A cat sat."), ("Summary 2", "A dog ran.")]).rows =
      .ok [⟨"Relevance", "Summary 1", 5⟩, ⟨"Relevance", "Summary 2", 5⟩,
        ⟨"Coherence", "Summary 1", 5⟩, ⟨"Coherence", "Summary 2", 5⟩,
        ⟨"Consistency", "Summary 1", 5⟩, ⟨"Consistency", "Summary 2", 5⟩,
        ⟨"Fluency", "Summary 1", 5⟩, ⟨"Fluency", "Summary 2", 5⟩] :=
  rfl

theorem collectFrom_nonempty (l : List String) :
    ∀ i, ∀ p ∈ collectFrom i l, p.2.isEmpty = false := by
  induction l with
  | nil => intro i p hp; simp [collectFrom] at hp
  | cons s rest ih =>
    intro i p hp
    rw [collectFrom] at hp
    cases hs : s.isEmpty with
    | true =>
      rw [if_pos hs] at hp
      exact ih (i + 1) p hp
    | false =>
      rw [if_neg (by rw [hs]; simp)] at hp
      rcases List.mem_cons.mp hp with rfl | hp'
      · exact hs
      · exact ih (i + 1) p hp'

theorem collectFrom_length (l : List String) :
    ∀ i, (collectFrom i l).length = (l.filter (fun s => !s.isEmpty)).length := by
  induction l with
  | nil => intro i; rfl
  | cons s rest ih =>
    intro i
    rw [collectFrom, List.filter_cons]
    cases hs : s.isEmpty with
    | true => simp [hs, ih (i + 1)]
    | false => simp [hs, ih (i + 1)]

/-- Claim C10: a summary slot left blank in the UI is silently omitted
from the summaries mapping rather than blocking the run: the gate's
condition over the mapping's values can never fail (only non-empty
texts are ever inserted), the evaluation proceeds over the non-empty
slots only, and a successful report has one column per non-empty slot —
possibly fewer than the N requested. -/
theorem claim10_blank_slots_omitted (inputs : List String) (button : Bool) (src : String)
    (svc : String → String) (rows : List ScoreRow)
    (hok : (evaluate_summaries svc src (collect_summaries inputs)).rows = .ok rows) :
    ((collect_summaries inputs).map Prod.snd).all (fun t => !t.isEmpty) = true ∧
    gate button src (collect_summaries inputs) = (button && !src.isEmpty) ∧
    (collect_summaries inputs).length = (inputs.filter (fun s => !s.isEmpty)).length ∧
    rows.length = 4 * (inputs.filter (fun s => !s.isEmpty)).length := by
  have hall : ((collect_summaries inputs).map Prod.snd).all (fun t => !t.isEmpty) = true := by
    rw [List.all_eq_true]
    intro t ht
    rw [List.mem_map] at ht
    obtain ⟨p, hp, rfl⟩ := ht
    rw [collectFrom_nonempty inputs 0 p hp]
    rfl
  have hlen : (collect_summaries inputs).length =
      (inputs.filter (fun s => !s.isEmpty)).length := collectFrom_length inputs 0
  refine ⟨hall, ?_, hlen, ?_⟩
  · rw [gate, hall, Bool.and_true]
  · obtain ⟨hrows, _, _⟩ := evaluate_summaries_ok_char svc src (collect_summaries inputs) rows hok
    rw [hrows, flatMap_const_length METRICS _ (collect_summaries inputs).length
      (fun m _ => List.length_map _ _), hlen]
    rfl

/-- Witness for claim C10: three requested slots with the middle one
left blank; the run proceeds over the two non-empty summaries and the
report has 4 × 2 rows, with labels "Summary 1" and "Summary 3". -/
theorem claim10_blank_slots_omitted_witness :
    (evaluate_summaries (fun _ => "5") "doc" (collect_summaries ["a", "", "b"])).rows =
      .ok [⟨"Relevance", "Summary 1", 5⟩, ⟨"Relevance", "Summary 3", 5⟩,
        ⟨"Coherence", "Summary 1", 5⟩, ⟨"Coherence", "Summary 3", 5⟩,
        ⟨"Consistency", "Summary 1", 5⟩, ⟨"Consistency", "Summary 3", 5⟩,
        ⟨"Fluency", "Summary 1", 5⟩, ⟨"Fluency", "Summary 3", 5⟩] ∧
    (((collect_summaries ["a", "", "b"]).map Prod.snd).all (fun t => !t.isEmpty) = true ∧
      gate true "doc" (collect_summaries ["a", "", "b"]) = (true && !("doc" : String).isEmpty) ∧
      (collect_summaries ["a", "", "b"]).length =
        ((["a", "", "b"] : List String).filter (fun s => !s.isEmpty)).length ∧
      ([⟨"Relevance", "Summary 1", 5⟩, ⟨"Relevance", "Summary 3", 5⟩,
        ⟨"Coherence", "Summary 1", 5⟩, ⟨"Coherence", "Summary 3", 5⟩,
        ⟨"Consistency", "Summary 1", 5⟩, ⟨"Consistency", "Summary 3", 5⟩,
        ⟨"Fluency", "Summary 1", 5⟩, ⟨"Fluency", "Summary 3", 5⟩] : List ScoreRow).length =
        4 * ((["a", "", "b"] : List String).filter (fun s => !s.isEmpty)).length) :=
  ⟨rfl, claim10_blank_slots_omitted ["a", "", "b"] true "doc" (fun _ => "5") _ rfl⟩
